import Mathlib

/-!
Verification of the `err-ctx` error-context library (`src/lib.rs`).

The library wraps failures in a `Context` pairing a caller-supplied context
value with the underlying cause, displayed as `"context: cause"`.

Embedding notes:
* A boxed trait object `Box<dyn Error + Send + Sync>` is modelled by `ErrObj`:
  a display text together with an optional source (the causal chain).
* A concrete Rust error type `E: Into<Box<dyn Error + Send + Sync>>` is
  modelled by an arbitrary Lean type `E` together with a conversion
  `intoErr : E → ErrObj` standing for `Into::into`.
* A Rust `Display` impl for the context type `C` is modelled at the string
  level by a function `dispC : C → String`, and at the formatter level by a
  function `C → Formatter → Except Unit Formatter` (Rust's `fmt::Result`).
* `Result<T, E>` is `Except E T`; `map_err` is transcribed as `Result.map_err`.
* The `FnOnce(&E) -> D` closure of `with_ctx` is modelled in a state monad so
  that the number of invocations is observable.
-/

/-- Model of `Box<dyn Error + Send + Sync>`: a trait object exposing a display
text (`Display` impl) and an optional underlying source (`Error::source`). -/
inductive ErrObj : Type where
  | base (displayText : String)
  | node (displayText : String) (src : ErrObj)
deriving DecidableEq, Repr

/-- The `Display` text of a boxed error. -/
def ErrObj.display : ErrObj → String
  | .base d => d
  | .node d _ => d

/-- The `Error::source` accessor of a boxed error. -/
def ErrObj.errorSource : ErrObj → Option ErrObj
  | .base _ => none
  | .node _ s => some s

/-- Length of the causal chain starting at this error (the error itself plus
every error reachable through `Error::source`). -/
def ErrObj.chainLen : ErrObj → Nat
  | .base _ => 1
  | .node _ s => 1 + s.chainLen

/-- `struct Context<C> { context: C, source: Box<dyn Error + Send + Sync> }` -/
structure Context (C : Type) where
  context : C
  source : ErrObj
deriving DecidableEq, Repr

/-- `Context::new(context, source)` — the plain constructor
`Self { context, source }`. -/
def Context.new {C : Type} (context : C) (source : ErrObj) : Context C :=
  { context := context, source := source }

/-- String-level transcription of `impl fmt::Display for Context<C>`:
`self.context.fmt(f)?; f.write_str(": ")?; self.source.fmt(f)`. -/
def Context.display {C : Type} (dispC : C → String) (c : Context C) : String :=
  dispC c.context ++ ": " ++ c.source.display

/-- `impl Error for Context<C>`: `fn source(&self) = Some(&*self.source)`. -/
def Context.errorSource {C : Type} (c : Context C) : Option ErrObj :=
  some c.source

/-- Coercion of a `Context<C>` into `Box<dyn Error + Send + Sync>`: the trait
object's display text is the `Display` impl's output and its source is what
the `Error` impl's `source` method returns. -/
def Context.toErr {C : Type} (dispC : C → String) (c : Context C) : ErrObj :=
  .node (Context.display dispC c) c.source

/-- `impl<T: Into<Box<dyn Error + Send + Sync>>> ErrorExt for T`:
`fn ctx(self, context) = Context { context, source: self.into() }`. -/
def ErrorExt.ctx {E D : Type} (intoErr : E → ErrObj) (e : E) (context : D) :
    Context D :=
  { context := context, source := intoErr e }

/-- `Result::map_err`: `Ok(t) => Ok(t)`, `Err(e) => Err(op(e))`. -/
def Result.map_err {T E F : Type} (r : Except E T) (op : E → F) : Except F T :=
  match r with
  | .ok t => .ok t
  | .error e => .error (op e)

/-- `ResultExt::ctx`: `self.map_err(|e| e.ctx(context))`. -/
def ResultExt.ctx {T E D : Type} (intoErr : E → ErrObj) (r : Except E T)
    (context : D) : Except (Context D) T :=
  Result.map_err r (fun e => ErrorExt.ctx intoErr e context)

/-- `ResultExt::with_ctx`:
`self.map_err(|e| { let context = f(&e); e.ctx(context) })`, with the `FnOnce`
closure `f` embedded in a state monad so its invocations are observable. The
closure runs only inside the `Err` arm of `map_err`. -/
def ResultExt.with_ctx {T E D : Type} {σ : Type} (intoErr : E → ErrObj)
    (r : Except E T) (f : E → StateM σ D) : StateM σ (Except (Context D) T) :=
  match r with
  | .ok t => pure (.ok t)
  | .error e => do
    let context ← f e
    pure (.error (ErrorExt.ctx intoErr e context))

/-- Counting instrumentation of a pure closure: each invocation increments the
state, so the final state counts how many times the closure ran. -/
def countingFn {E D : Type} (g : E → D) : E → StateM Nat D :=
  fun e n => (g e, n + 1)

/-- Model of host formatters (`fmt::Formatter`): an output buffer. -/
structure Formatter where
  out : String
deriving DecidableEq, Repr

/-- `Formatter::write_str` of the buffer formatter: appends and succeeds. -/
def Formatter.writeStr (f : Formatter) (s : String) : Except Unit Formatter :=
  .ok { out := f.out ++ s }

/-- Formatter-level transcription of `impl fmt::Display for Context<C>`: each
`?` propagates the sub-formatter's failure. `fmtC` is the context type's
`Display` impl and `fmtSrc` the boxed cause's `Display` impl. -/
def Context.fmt {C : Type} (fmtC : C → Formatter → Except Unit Formatter)
    (fmtSrc : ErrObj → Formatter → Except Unit Formatter)
    (c : Context C) (f : Formatter) : Except Unit Formatter := do
  let f ← fmtC c.context f
  let f ← Formatter.writeStr f ": "
  fmtSrc c.source f

/-- The `Display` impl of a boxed error at formatter level: writes its display
text. -/
def ErrObj.fmt (e : ErrObj) (f : Formatter) : Except Unit Formatter :=
  f.writeStr e.display

/-- Consistency of the two transcriptions of the `Display` impl: running the
formatter-level one with string-writing sub-formatters appends exactly the
string-level display text to the buffer. -/
theorem Context.fmt_display {C : Type} (dispC : C → String) (c : Context C)
    (f : Formatter) :
    Context.fmt (fun x g => g.writeStr (dispC x)) ErrObj.fmt c f
      = .ok { out := f.out ++ Context.display dispC c } := by
  simp [Context.fmt, Context.display, ErrObj.fmt, Formatter.writeStr, bind,
    Except.bind, String.append_assoc]

/-- C1: Display of a wrapped failure is exactly the context's display text,
then the literal `": "`, then the cause's display text: for every failure `e`
and context value `c`, the error produced by `ResultExt.ctx` on `Err(e)`
displays as `display c ++ ": " ++ display e`. -/
theorem C1_display_of_wrapped_failure {T E C : Type} (intoErr : E → ErrObj)
    (dispC : C → String) (e : E) (c : C) :
    ∃ cv : Context C,
      ResultExt.ctx (T := T) intoErr (Except.error e) c = Except.error cv
      ∧ Context.display dispC cv = dispC c ++ ": " ++ (intoErr e).display :=
  ⟨_, rfl, rfl⟩

/-- C2: `ResultExt.ctx` is the identity on the success path: for every success
value `v` and context value `c`, `ctx (Ok v) c = Ok v`. -/
theorem C2_success_identity {T E C : Type} (intoErr : E → ErrObj) (v : T)
    (c : C) :
    ResultExt.ctx (E := E) intoErr (Except.ok v) c = Except.ok v :=
  rfl

/-- C3: `with_ctx (Err e) f` produces the same result as `ctx (Err e) (f e)`,
and the closure `f` (instrumented to count its invocations) runs exactly once
on the failure path and never on the success path. -/
theorem C3_with_ctx_lazy {T E C : Type} (intoErr : E → ErrObj) (g : E → C) :
    (∀ (e : E) (n : Nat),
      ResultExt.with_ctx (T := T) intoErr (Except.error e) (countingFn g) n
        = (ResultExt.ctx intoErr (Except.error e) (g e), n + 1))
    ∧ (∀ (v : T) (n : Nat),
      ResultExt.with_ctx (E := E) intoErr (Except.ok v) (countingFn g) n
        = (Except.ok v, n)) :=
  ⟨fun _ _ => rfl, fun _ _ => rfl⟩

/-- C4: the `Error::source` accessor of a `Context` built by wrapping an error
`e` always returns `some` of a value whose display equals the display of the
converted `e` — never `none`. -/
theorem C4_source_always_present {E C : Type} (intoErr : E → ErrObj) (e : E)
    (c : C) :
    ∃ s : ErrObj, Context.errorSource (ErrorExt.ctx intoErr e c) = some s
      ∧ s.display = (intoErr e).display :=
  ⟨intoErr e, rfl, rfl⟩

/-- C5: nested wrapping composes outermost-to-innermost: wrapping the error of
`ctx (Err e) c₁` again with context `c₂` displays as
`display c₂ ++ ": " ++ display c₁ ++ ": " ++ display e`. -/
theorem C5_nesting {T E C₁ C₂ : Type} (intoErr : E → ErrObj)
    (dispC₁ : C₁ → String) (dispC₂ : C₂ → String) (e : E) (c₁ : C₁)
    (c₂ : C₂) :
    ∃ inner : Context C₁,
      ResultExt.ctx (T := T) intoErr (Except.error e) c₁ = Except.error inner
      ∧ Context.display dispC₂ (ErrorExt.ctx (Context.toErr dispC₁) inner c₂)
          = dispC₂ c₂ ++ ": " ++ dispC₁ c₁ ++ ": " ++ (intoErr e).display := by
  refine ⟨_, rfl, ?_⟩
  simp [Context.display, ErrorExt.ctx, Context.toErr, ErrObj.display,
    String.append_assoc]

/-- C6: `ErrorExt::ctx` on a raw error equals plain construction: it produces
exactly `Context.new c (intoErr e)` — same context field, same boxed cause. -/
theorem C6_direct_wrap_eq_new {E C : Type} (intoErr : E → ErrObj) (e : E)
    (c : C) :
    ErrorExt.ctx intoErr e c = Context.new c (intoErr e) :=
  rfl

/-- C7: no library operation has a runtime-failure path: construction is a
plain data constructor, `ctx` and `with_ctx` preserve the success/failure
shape of their input (they never fail themselves), cause lookup always
returns `some`, and the `Display` impl only forwards the sub-formatters'
results — it succeeds whenever they do. -/
theorem C7_no_failure_paths {T E C : Type} {σ : Type} (intoErr : E → ErrObj) :
    (∀ (c : C) (s : ErrObj), Context.new c s = { context := c, source := s })
    ∧ (∀ (r : Except E T) (c : C), (ResultExt.ctx intoErr r c).isOk = r.isOk)
    ∧ (∀ (r : Except E T) (f : E → StateM σ C) (s : σ),
        ((ResultExt.with_ctx intoErr r f s).1).isOk = r.isOk)
    ∧ (∀ cv : Context C, (Context.errorSource cv).isSome)
    ∧ (∀ (fmtC : C → Formatter → Except Unit Formatter)
        (fmtSrc : ErrObj → Formatter → Except Unit Formatter)
        (cv : Context C) (f : Formatter),
        (∀ x g, (fmtC x g).isOk) → (∀ x g, (fmtSrc x g).isOk) →
        (Context.fmt fmtC fmtSrc cv f).isOk) := by
  refine ⟨fun _ _ => rfl, fun r c => ?_, fun r f s => ?_, fun _ => rfl,
    fun fmtC fmtSrc cv f h₁ h₂ => ?_⟩
  · cases r <;> rfl
  · cases r with
    | ok t => rfl
    | error e =>
      cases hf : f e s with
      | mk d s' =>
        simp [ResultExt.with_ctx, pure, StateT.pure, bind, StateT.bind, hf,
          Except.isOk, Except.toBool]
  · have hc := h₁ cv.context f
    unfold Context.fmt
    cases hC : fmtC cv.context f with
    | error u => rw [hC] at hc; exact Bool.noConfusion hc
    | ok f₁ =>
      have hs := h₂ cv.source { out := f₁.out ++ ": " }
      cases hS : fmtSrc cv.source { out := f₁.out ++ ": " } with
      | error u => rw [hS] at hs; exact Bool.noConfusion hs
      | ok f₂ =>
        simp [bind, Except.bind, hC, Formatter.writeStr, hS, Except.isOk,
          Except.toBool]

/-- Witness for C7 at concrete inputs: every operation succeeds on the "bar"
context wrapping the "foo" error, with string-writing sub-formatters. -/
theorem C7_witness :
    (Context.fmt (fun x g => Formatter.writeStr g x) ErrObj.fmt
      (Context.new "bar" (ErrObj.base "foo")) (Formatter.mk "")).isOk :=
  (C7_no_failure_paths (T := Unit) (E := String) (σ := Nat)
    (fun s => ErrObj.base s)).2.2.2.2
    (fun x g => Formatter.writeStr g x) ErrObj.fmt
    (Context.new "bar" (ErrObj.base "foo")) (Formatter.mk "")
    (fun _ _ => rfl) (fun _ _ => rfl)

/-- C8: wrapping never swallows or recovers an error: on success both `ctx`
and `with_ctx` return the success unchanged; on failure both return a failure
whose causal chain is exactly one `Context` layer longer than the input
error's chain — never zero layers, never more. -/
theorem C8_never_swallows {T E C : Type} (intoErr : E → ErrObj)
    (dispC : C → String) (g : E → C) :
    (∀ (v : T) (c : C),
      ResultExt.ctx (E := E) intoErr (Except.ok v) c = Except.ok v)
    ∧ (∀ (v : T) (n : Nat),
      ResultExt.with_ctx (E := E) intoErr (Except.ok v) (countingFn g) n
        = (Except.ok v, n))
    ∧ (∀ (e : E) (c : C), ∃ cv : Context C,
      ResultExt.ctx (T := T) intoErr (Except.error e) c = Except.error cv
      ∧ (Context.toErr dispC cv).chainLen = (intoErr e).chainLen + 1)
    ∧ (∀ (e : E) (n : Nat), ∃ cv : Context C,
      ResultExt.with_ctx (T := T) intoErr (Except.error e) (countingFn g) n
        = (Except.error cv, n + 1)
      ∧ (Context.toErr dispC cv).chainLen = (intoErr e).chainLen + 1) := by
  refine ⟨fun _ _ => rfl, fun _ _ => rfl, fun e c => ⟨_, rfl, ?_⟩,
    fun e n => ⟨_, rfl, ?_⟩⟩ <;>
    simp [Context.toErr, ErrObj.chainLen, ErrorExt.ctx, Nat.add_comm]

/-- C9: display of a `Context` is deterministic and depends on nothing but the
context's display text and the cause's display text: two contexts agreeing on
those produce byte-for-byte identical output. -/
theorem C9_display_deterministic {C₁ C₂ : Type} (dispC₁ : C₁ → String)
    (dispC₂ : C₂ → String) (c₁ : Context C₁) (c₂ : Context C₂)
    (hctx : dispC₁ c₁.context = dispC₂ c₂.context)
    (hsrc : c₁.source.display = c₂.source.display) :
    Context.display dispC₁ c₁ = Context.display dispC₂ c₂ := by
  simp [Context.display, hctx, hsrc]

/-- Witness for C9 at concrete inputs: a string context and a unit context
with equal display texts over equally-displaying causes render identically. -/
theorem C9_witness :
    Context.display (fun s : String => s) (Context.new "x" (ErrObj.base "y"))
      = Context.display (fun _ : Unit => "x")
          (Context.new () (ErrObj.base "y")) :=
  C9_display_deterministic (fun s : String => s) (fun _ : Unit => "x")
    (Context.new "x" (ErrObj.base "y")) (Context.new () (ErrObj.base "y"))
    rfl rfl

/-- C10: the cause stored by `with_ctx` is the very error value that the
closure `f` observed: whatever context `f` computes from `e`, the resulting
`Context` holds that computed context together with exactly `intoErr e` as its
cause, and the state threaded through `f` is passed along untouched. -/
theorem C10_with_ctx_stores_observed_error {T E C σ : Type}
    (intoErr : E → ErrObj) (f : E → StateM σ C) (e : E) (s : σ) :
    ∃ (d : C) (s' : σ), f e s = (d, s')
      ∧ ResultExt.with_ctx (T := T) intoErr (Except.error e) f s
          = (Except.error (Context.new d (intoErr e)), s') := by
  refine ⟨(f e s).1, (f e s).2, rfl, ?_⟩
  cases hf : f e s with
  | mk d s' =>
    simp [ResultExt.with_ctx, bind, StateT.bind, pure, StateT.pure, hf,
      ErrorExt.ctx, Context.new]
